import Mathlib

/-!
Verification of the `payment_garanti` / `delivery_integration_base` Odoo addons.

The Python sources are shallowly embedded: pure string manipulation is
translated to Lean functions on `String` / `List Char`, exceptions become
`Except` or explicit outcome inductives, and external effects (HTTP transport,
XML parsing by lxml, ORM writes) are modelled as explicit inputs or as effect
traces.  SHA-1 itself is kept abstract: every hash-related definition is
parametrised by the function `sha1hex : String → String` standing for
`hashlib.sha1(·).hexdigest()`, so all statements about hashing are statements
about the exact string fed to SHA-1 and the post-processing applied to the
digest.
-/

/-! ## Python string primitives -/

/-- Python `str.upper()` restricted to the ASCII range actually produced by
`hexdigest()`. -/
def pyUpper (s : String) : String := String.map Char.toUpper s

/-- Python truthiness of an optional string (`None` and `""` are falsy). -/
def pyTruthy : Option String → Bool
  | none => false
  | some s => s ≠ ""

/-- Python `a or b` on optional strings: the first truthy operand, else `b`. -/
def pyOr (a b : Option String) : Option String :=
  if pyTruthy a then a else b

/-- Python `str.zfill(width)`: left-pad with `'0'` to `width`, keeping a
leading sign character in front of the padding. -/
def zfillChars (l : List Char) (w : Nat) : List Char :=
  match l with
  | c :: rest =>
      if c = '+' ∨ c = '-' then c :: List.replicate (w - l.length) '0' ++ rest
      else List.replicate (w - l.length) '0' ++ l
  | [] => List.replicate w '0'

/-- Python `str.zfill(width)` on `String`. -/
def zfill (s : String) (w : Nat) : String := (zfillChars s.toList w).asString

/-- Python `s.split(sep)[0]` for a one-character separator: the characters
before the first occurrence of the separator (the whole string if absent). -/
def pySplitHead (sep : Char) (s : String) : String :=
  (s.toList.takeWhile (fun c => c ≠ sep)).asString

/-- Python `str.replace(old, new)` (all non-overlapping occurrences, scanned
left to right), written with a fuel argument so that it is structurally
recursive; `pyReplace` instantiates the fuel with the length of the subject,
which suffices because every step consumes at least one character. -/
def pyReplaceFuel (old new : List Char) : Nat → List Char → List Char
  | _, [] => []
  | 0, s => s
  | Nat.succ fuel, c :: cs =>
      if old.isPrefixOf (c :: cs) ∧ old ≠ [] then
        new ++ pyReplaceFuel old new fuel (List.drop (old.length - 1) cs)
      else
        c :: pyReplaceFuel old new fuel cs

/-- Python `str.replace(old, new)` on `String` (for non-empty `old`). -/
def pyReplace (s old new : String) : String :=
  (pyReplaceFuel old.toList new.toList s.toList.length s.toList).asString

/-! ## Data model: acquirer configuration and transaction -/

/-- The `payment.acquirer` fields and getters the connector reads.
`return_url` stands for `_garanti_get_return_url()`. -/
structure GarantiAcquirer where
  garanti_prov_password : String
  garanti_terminal_id : String
  garanti_store_key : String
  garanti_prov_user : String
  garanti_merchant_id : String
  return_url : String
  mode : String
  company_name : String
  currency_code : String
  deriving Repr, DecidableEq

/-- The `payment.transaction` fields the connector reads. -/
structure GarantiTx where
  reference : String
  partner_email : String
  partner_lang : Option String
  deriving Repr, DecidableEq

/-- `GarantiConnector.reference`: `self.tx.reference.split("-")[0]`. -/
def garanti_reference (tx : GarantiTx) : String :=
  pySplitHead '-' tx.reference

/-- `GarantiConnector._get_partner_email`: `self.tx.partner_email.split(",")[0]`. -/
def garanti_get_partner_email (tx : GarantiTx) : String :=
  pySplitHead ',' tx.partner_email

/-- `GarantiConnector._garanti_get_partner_lang`. -/
def garanti_get_partner_lang (tx : GarantiTx) : String :=
  if pyTruthy tx.partner_lang ∧
      (tx.partner_lang = some "tr_TR" ∨ tx.partner_lang = some "tr") then "tr"
  else "en"

/-! ## SecurityHasher (C1) -/

/-- `GarantiConnector._garanti_compute_security_data`:
`sha1((prov_password + terminal_id.zfill(9)).encode()).hexdigest().upper()`. -/
def garanti_compute_security_data (sha1hex : String → String)
    (acq : GarantiAcquirer) : String :=
  pyUpper (sha1hex (acq.garanti_prov_password ++ zfill acq.garanti_terminal_id 9))

/-- The exact string `hash_strings` that `_garanti_create_secure3d_hash`
feeds to SHA-1: terminal id, order reference, amount (in minor units),
return URL as `successurl`, return URL again as `errorurl`, the literal
`"sales"` transaction type, the store key, and the security-data digest. -/
def garanti_secure3d_hash_string (acq : GarantiAcquirer) (tx : GarantiTx)
    (amount : Int) (securityData : String) : String :=
  acq.garanti_terminal_id
    ++ garanti_reference tx
    ++ toString amount
    ++ acq.return_url
    ++ acq.return_url
    ++ "sales"
    ++ acq.garanti_store_key
    ++ securityData

/-- `GarantiConnector._garanti_create_secure3d_hash`:
`sha1(hash_strings.encode()).hexdigest().upper()`. -/
def garanti_create_secure3d_hash (sha1hex : String → String)
    (acq : GarantiAcquirer) (tx : GarantiTx) (amount : Int) : String :=
  pyUpper (sha1hex
    (garanti_secure3d_hash_string acq tx amount
      (garanti_compute_security_data sha1hex acq)))

/-- The concatenation the specification describes for the 3-D Secure hash:
terminal id, order reference, amount, return URL, transaction type, store
key, security data — each field exactly once, in that order. -/
def spec_secure3d_hash_string (acq : GarantiAcquirer) (tx : GarantiTx)
    (amount : Int) (securityData : String) : String :=
  acq.garanti_terminal_id
    ++ garanti_reference tx
    ++ toString amount
    ++ acq.return_url
    ++ "sales"
    ++ acq.garanti_store_key
    ++ securityData

/-- A concrete acquirer configuration used in counterexamples. -/
def acq0 : GarantiAcquirer :=
  { garanti_prov_password := "pw"
    garanti_terminal_id := "10000001"
    garanti_store_key := "STOREKEY"
    garanti_prov_user := "PROVAUT"
    garanti_merchant_id := "7000001"
    return_url := "https://shop.example/payment/garanti/return"
    mode := "PROD"
    company_name := "Shop"
    currency_code := "949" }

/-- A concrete transaction used in counterexamples. -/
def tx0 : GarantiTx :=
  { reference := "S00042-1"
    partner_email := "a@b.c"
    partner_lang := some "tr_TR" }

/-! ## HttpTransport audit-log redaction (C4) -/

/-- `re.search(r"\d{16}", data)`: the leftmost run of 16 consecutive digit
characters, if any. -/
def search16 : List Char → Option (List Char)
  | [] => none
  | c :: cs =>
      if ((c :: cs).take 16).length = 16 ∧ ((c :: cs).take 16).all Char.isDigit
      then some ((c :: cs).take 16)
      else search16 cs

/-- `_anonymize_sensitive_data` (inside `_process_http_request`): search for a
16-digit sequence; when found, replace every occurrence of that exact sequence
with `"****"` followed by its last four digits. -/
def anonymize_sensitive_data (data : String) : String :=
  match search16 data.toList with
  | none => data
  | some p => pyReplace data p.asString ("****" ++ (p.drop 12).asString)

/-- `_process_http_request`, reduced to what it logs for one serialized
request/response string: when debug logging is disabled it returns without
logging anything; when enabled it logs the anonymized form. -/
def process_http_request_log (debug : Bool) (serialized : String) :
    Option String :=
  if debug then some (anonymize_sensitive_data serialized) else none

/-! ## ResponseParser: initiate-phase HTML (C5) -/

/-- What `BeautifulSoup` extracts from the initiate-phase HTML:
the `value` of the first `<input name="mderrormessage">` when such an input
is present, the `str(form)` of the first `<form id="webform0">` when present,
and `str(soup)`, the whole document. -/
structure HtmlDoc where
  mderrormessage : Option String
  webform0 : Option String
  full : String
  deriving Repr, DecidableEq

/-- `ValidationError` messages are modelled by their message string. -/
abbrev GarantiError := String

/-- `_garanti_parse_response_html`. -/
def garanti_parse_response_html (doc : HtmlDoc) :
    Except GarantiError (String × String) :=
  match doc.mderrormessage with
  | some v =>
      if v = "Not Authenticated" then
        Except.error "Payment failed. POS: Card is not authenticated."
      else
        Except.error ("Payment Error: " ++ v)
  | none =>
      match doc.webform0 with
      | some f => Except.ok ("form", f)
      | none => Except.ok ("redirect", doc.full)

/-- `_garanti_make_payment_request`: posts the payment vals and parses the
HTML answer, with the whole request-and-parse wrapped in
`try: ... except Exception: raise ValidationError("Payment Error: An error
occurred. Please try again.")`.  The transport outcome is an explicit input:
`Except.error ()` stands for any exception raised by `_garanti_requests`
(connection failure, timeout, non-2xx status). -/
def garanti_make_payment_request (transport : Except Unit HtmlDoc) :
    Except GarantiError (String × String) :=
  match transport with
  | Except.error _ =>
      Except.error "Payment Error: An error occurred. Please try again."
  | Except.ok doc =>
      match garanti_parse_response_html doc with
      | Except.error _ =>
          Except.error "Payment Error: An error occurred. Please try again."
      | Except.ok r => Except.ok r

/-! ## ResponseParser: callback-confirmation XML (C2) -/

/-- The nodes `_garanti_payment_callback` reads from the provider's XML
answer.  Each field is `none` when the node is absent (so that `.text` raises
`AttributeError` in the Python), and `some t` when the node is present with
text `t` (where `t = none` models lxml's `None` text of an empty element). -/
structure CallbackXml where
  reasonCode : Option (Option String)
  message : Option (Option String)
  errorMsg : Option (Option String)
  deriving Repr, DecidableEq

/-- The provider's raw answer to the callback-confirmation POST: either a
document lxml can parse, or a malformed body on which `etree.fromstring`
raises. -/
inductive ProviderResponse where
  | malformed : ProviderResponse
  | parsed : CallbackXml → ProviderResponse
  deriving Repr, DecidableEq

/-- `_garanti_payment_callback`, after the callback XML has been built: the
first `try` turns any transport exception into the generic message; the
second `try` parses the response, and any exception inside it (malformed
XML, or `.text` on a missing node) is caught and turned into the generic
message.  The returned value is the Python return value (`none` models
returning Python `None`, which happens when `ErrorMsg` is present but
empty). -/
def garanti_payment_callback (transport : Except Unit ProviderResponse) :
    Option String :=
  match transport with
  | Except.error _ => some "Payment Error: Please try again."
  | Except.ok ProviderResponse.malformed => some "Payment Error: Please try again."
  | Except.ok (ProviderResponse.parsed x) =>
      match x.reasonCode with
      | none => some "Payment Error: Please try again."
      | some rc =>
          match x.message with
          | none => some "Payment Error: Please try again."
          | some m =>
              if rc ≠ some "00" ∨ m ≠ some "Approved" then
                match x.errorMsg with
                | none => some "Payment Error: Please try again."
                | some e => e
              else m

/-! ## ResponseParser: status-query XML (C7) -/

/-- The nodes `_garanti_query_transaction` reads: `root.find(".//ReasonCode")`
and `root.find(".//ErrorMsg")`, each `none` when absent, `some t` when present
with text `t`. -/
structure QueryXml where
  reasonCode : Option (Option String)
  errorMsg : Option (Option String)
  deriving Repr, DecidableEq

/-- Outcome of `_garanti_query_transaction` as seen by its caller. -/
inductive QueryOutcome where
  /-- a `ValidationError` raised by the function itself -/
  | validationError : String → QueryOutcome
  /-- an exception that propagates uncaught (lxml `XMLSyntaxError` from
  `etree.fromstring`, or `AttributeError` from `.text` on a missing node) -/
  | uncaughtException : QueryOutcome
  /-- `return error_msg.text` -/
  | errText : String → QueryOutcome
  /-- `return True` -/
  | ok : QueryOutcome
  deriving Repr, DecidableEq

/-- `_garanti_query_transaction`, after the query XML has been built.  Only
the transport call sits inside a `try`; `etree.fromstring(resp.content)` and
the node lookups run outside it, so a parse failure propagates uncaught.
The input is the transport outcome; on success it carries the parse outcome
of the response body. -/
def garanti_query_transaction
    (transport : Except Unit (Except Unit QueryXml)) : QueryOutcome :=
  match transport with
  | Except.error _ =>
      QueryOutcome.validationError
        "Payment Error: An error occurred. Please try again."
  | Except.ok (Except.error _) => QueryOutcome.uncaughtException
  | Except.ok (Except.ok x) =>
      match x.reasonCode with
      | none => QueryOutcome.uncaughtException
      | some rc =>
          if pyTruthy rc then
            match x.errorMsg with
            | none => QueryOutcome.uncaughtException
            | some em =>
                if pyTruthy em then QueryOutcome.errText (em.getD "")
                else QueryOutcome.ok
          else QueryOutcome.ok

/-! ## RequestBuilder: initiate parameter set (C9) -/

/-- The transient card-data bundle assembled by the controller. -/
structure CardArgs where
  card_name : String
  card_number : String
  card_cvv : String
  card_valid_month : String
  card_valid_year : String
  deriving Repr, DecidableEq

/-- The flat parameter mapping `_garanti_create_payment_vals` returns, one
field per dictionary key. -/
structure PaymentVals where
  refreshtime : String
  paymenttype : String
  secure3dsecuritylevel : String
  txntype : String
  cardname : String
  cardnumber : String
  cardexpiredatemonth : String
  cardexpiredateyear : String
  cardcvv2 : String
  companyname : String
  apiversion : String
  mode : String
  terminalprovuserid : String
  terminaluserid : String
  terminalid : String
  terminalmerchantid : String
  orderid : String
  customeremailaddress : String
  customeripaddress : String
  txnamount : String
  txncurrencycode : String
  txninstallmentcount : String
  successurl : String
  errorurl : String
  lang : String
  txntimestamp : Nat
  txntimeoutperiod : Nat
  addcampaigninstallment : String
  totalinstallmentcount : String
  installmentonlyforcommercialcard : String
  secure3dhash : String

/-- `_garanti_create_payment_vals`.  `format_card_number` stands for the
acquirer helper `_garanti_format_card_number` (defined outside this repo) and
`timestamp` for `round(time.time() * 1000)`. -/
def garanti_create_payment_vals (sha1hex : String → String)
    (format_card_number : String → String) (acq : GarantiAcquirer)
    (tx : GarantiTx) (card_args : CardArgs) (client_ip : String)
    (amount : Int) (timestamp : Nat) : PaymentVals :=
  { refreshtime := "0"
    paymenttype := "creditcard"
    secure3dsecuritylevel := "3D"
    txntype := "sales"
    cardname := card_args.card_name
    cardnumber := format_card_number card_args.card_number
    cardexpiredatemonth := card_args.card_valid_month
    cardexpiredateyear := pyReplace card_args.card_valid_year "20" ""
    cardcvv2 := card_args.card_cvv
    companyname := acq.company_name
    apiversion := "12"
    mode := acq.mode
    terminalprovuserid := acq.garanti_prov_user
    terminaluserid := acq.garanti_terminal_id
    terminalid := acq.garanti_terminal_id
    terminalmerchantid := acq.garanti_merchant_id
    orderid := garanti_reference tx
    customeremailaddress := garanti_get_partner_email tx
    customeripaddress := client_ip
    txnamount := toString amount
    txncurrencycode := acq.currency_code
    txninstallmentcount := ""
    successurl := acq.return_url
    errorurl := acq.return_url
    lang := garanti_get_partner_lang tx
    txntimestamp := timestamp
    txntimeoutperiod := 60
    addcampaigninstallment := "N"
    totalinstallmentcount := "0"
    installmentonlyforcommercialcard := "N"
    secure3dhash := garanti_create_secure3d_hash sha1hex acq tx amount }

/-! ## Controller: /payment/garanti/s2s/create_json_3ds (C6, C8) -/

/-- Side effects performed by `garanti_s2s_create_json_3ds`, in order. -/
inductive CtrlEffect where
  /-- `payment.transaction.create(...)` -/
  | txCreate : CtrlEffect
  /-- the call to `acq._garanti_make_payment_request` (the network call) -/
  | paymentRequest : CtrlEffect
  /-- `tx_sudo._set_transaction_error(msg)` -/
  | setTxError : String → CtrlEffect
  /-- `PaymentProcessing.add_payment_transaction(tx_sudo)` -/
  | addPaymentTx : CtrlEffect
  deriving Repr, DecidableEq

/-- How `garanti_s2s_create_json_3ds` terminates. -/
inductive CtrlOutcome where
  /-- a `ValidationError` raised with the given message -/
  | validationError : String → CtrlOutcome
  /-- `return response_content` with `response_content` bound -/
  | response : String × String → CtrlOutcome
  /-- `return response_content` with `response_content` never assigned on
  this path (Python raises `UnboundLocalError` at the `return`) -/
  | unboundLocal : CtrlOutcome
  deriving Repr, DecidableEq

/-- The environment-dependent data the controller consumes:
whether the browsed sale order exists, the result of
`acq._garanti_validate_card_args`, whether `float(kwargs["amount_total"])`
parses, the value of `float_compare(amount, order.garanti_payment_amount,
precision)`, and the outcome of `acq._garanti_make_payment_request`
(`Except.error ()` standing for any exception it raises). -/
structure CtrlEnv where
  order_found : Bool
  card_error : Option String
  amount_parses : Bool
  amount_compare : Int
  payment_request : Except Unit (String × String)

/-- `GarantiController.garanti_s2s_create_json_3ds`, as the ordered list of
side effects it performs together with its final outcome. -/
def garanti_s2s_create_json_3ds (env : CtrlEnv) :
    List CtrlEffect × CtrlOutcome :=
  if ¬ env.order_found then
    ([], CtrlOutcome.validationError "Sale order not found")
  else if pyTruthy env.card_error then
    ([], CtrlOutcome.validationError (env.card_error.getD ""))
  else if ¬ env.amount_parses then
    ([], CtrlOutcome.validationError "Invalid amount")
  else if env.amount_compare ≠ 0 then
    ([], CtrlOutcome.validationError "Invalid amount")
  else
    match env.payment_request with
    | Except.ok r =>
        ([CtrlEffect.txCreate, CtrlEffect.paymentRequest,
          CtrlEffect.addPaymentTx], CtrlOutcome.response r)
    | Except.error _ =>
        ([CtrlEffect.txCreate, CtrlEffect.paymentRequest,
          CtrlEffect.setTxError "Payment Error. Please contact us.",
          CtrlEffect.addPaymentTx], CtrlOutcome.unboundLocal)

/-! ## delivery_integration_base: stock.picking.button_mail_send (C10) -/

/-- The fields of a `stock.picking` record that `button_mail_send` reads or
writes, plus a counter of `message_post_with_template` calls standing for the
emails queued for this record. -/
structure StockPicking where
  partner_email : Option String
  sale_partner_email : Option String
  mail_sent : Bool
  messages_posted : Nat
  deriving Repr, DecidableEq

/-- `StockPicking.button_mail_send`: posts the shipment-status mail template
and marks `mail_sent` when a recipient email exists and the mail was not sent
before; always returns `True`. -/
def button_mail_send (p : StockPicking) : StockPicking × Bool :=
  let email := pyOr p.partner_email p.sale_partner_email
  if pyTruthy email ∧ ¬ p.mail_sent then
    ({ p with messages_posted := p.messages_posted + 1, mail_sent := true },
      true)
  else
    (p, true)

/-! ## Concrete inputs used by counterexamples and witnesses -/

/-- An initiate-phase HTML answer whose error field says the card failed the
3-D Secure challenge. -/
def docNotAuth : HtmlDoc :=
  { mderrormessage := some "Not Authenticated"
    webform0 := none
    full := "<html></html>" }

/-- Card args with the 4-digit expiry year 2020. -/
def cardArgs2020 : CardArgs :=
  { card_name := "A B"
    card_number := "4111111111111111"
    card_cvv := "123"
    card_valid_month := "12"
    card_valid_year := "2020" }

/-! ## Claims -/

/-- C1, counterexample: the string `_garanti_create_secure3d_hash` feeds to
SHA-1 is not the claimed concatenation in which each field appears exactly
once — on a concrete configuration the two strings differ, because the code
appends the return URL twice (once as `successurl`, once as `errorurl`). -/
theorem C1_counterexample :
    garanti_secure3d_hash_string acq0 tx0 1250 "SEC" ≠
      spec_secure3d_hash_string acq0 tx0 1250 "SEC" := by decide

/-- C1, amended: the 3-D Secure hash is the uppercase SHA-1 hex digest of the
concatenation terminal id, order reference, amount in minor units, return URL,
return URL again, `"sales"`, store key, security-data digest — i.e. the
claimed field order except that the return URL appears twice; accordingly the
string actually hashed is longer than the claimed one by exactly one more
copy of the return URL. -/
theorem C1_secure3d_hash_amended (sha1hex : String → String)
    (acq : GarantiAcquirer) (tx : GarantiTx) (amount : Int) :
    garanti_create_secure3d_hash sha1hex acq tx amount =
      pyUpper (sha1hex
        (acq.garanti_terminal_id
          ++ garanti_reference tx
          ++ toString amount
          ++ acq.return_url
          ++ acq.return_url
          ++ "sales"
          ++ acq.garanti_store_key
          ++ garanti_compute_security_data sha1hex acq))
  ∧ ∀ securityData : String,
      (garanti_secure3d_hash_string acq tx amount securityData).length =
        (spec_secure3d_hash_string acq tx amount securityData).length +
          acq.return_url.length := by
  constructor
  · rfl
  · intro securityData
    simp [garanti_secure3d_hash_string, spec_secure3d_hash_string,
      String.length_append]
    omega

/-- C2: parsing the callback-confirmation XML answer yields the approved
outcome (`return message`, the string `"Approved"`) exactly when the
`ReasonCode` text is `"00"` and the `Message` text is `"Approved"`; every
other combination returns the `ErrorMsg` node's text; a malformed body, a
missing `ReasonCode` node or a missing `Message` node all yield the generic
payment-error message instead of an uncaught exception. -/
theorem C2_callback_outcome :
    (∀ x : CallbackXml, x.reasonCode = some (some "00") →
        x.message = some (some "Approved") →
        garanti_payment_callback (Except.ok (ProviderResponse.parsed x)) =
          some "Approved")
  ∧ (∀ (x : CallbackXml) (rc m e : Option String),
        x.reasonCode = some rc → x.message = some m →
        ¬ (rc = some "00" ∧ m = some "Approved") →
        x.errorMsg = some e →
        garanti_payment_callback (Except.ok (ProviderResponse.parsed x)) = e)
  ∧ garanti_payment_callback (Except.ok ProviderResponse.malformed) =
      some "Payment Error: Please try again."
  ∧ (∀ x : CallbackXml, x.reasonCode = none →
        garanti_payment_callback (Except.ok (ProviderResponse.parsed x)) =
          some "Payment Error: Please try again.")
  ∧ (∀ (x : CallbackXml) (rc : Option String),
        x.reasonCode = some rc → x.message = none →
        garanti_payment_callback (Except.ok (ProviderResponse.parsed x)) =
          some "Payment Error: Please try again.") := by
  refine ⟨?_, ?_, rfl, ?_, ?_⟩
  · intro x h1 h2
    simp [garanti_payment_callback, h1, h2]
  · intro x rc m e h1 h2 hne h3
    have hcond : rc ≠ some "00" ∨ m ≠ some "Approved" := by tauto
    simp [garanti_payment_callback, h1, h2, h3, hcond]
  · intro x h1
    simp [garanti_payment_callback, h1]
  · intro x rc h1 h2
    simp [garanti_payment_callback, h1, h2]

/-- C2, witness: a `ReasonCode=00 / Message=Approved` answer is approved, and
a `ReasonCode=05` answer returns the provider's `ErrorMsg` text. -/
theorem C2_callback_outcome_witness :
    garanti_payment_callback (Except.ok (ProviderResponse.parsed
        ⟨some (some "00"), some (some "Approved"), some none⟩)) =
      some "Approved"
  ∧ garanti_payment_callback (Except.ok (ProviderResponse.parsed
        ⟨some (some "05"), some (some "Declined"),
          some (some "Not sufficient funds")⟩)) =
      some "Not sufficient funds" :=
  ⟨C2_callback_outcome.1 _ rfl rfl,
    C2_callback_outcome.2.1 _ _ _ _ rfl rfl (by decide) rfl⟩

/-- C4, counterexample: a request body containing two different 16-digit
sequences is logged with the second sequence intact — the redaction replaces
only the first-found sequence, so the logged form still contains a full
16-digit sequence (`5500000000000004`). -/
theorem C4_counterexample :
    process_http_request_log true "cc=4111111111111111&cc2=5500000000000004" =
      some "cc=****1111&cc2=5500000000000004"
  ∧ search16 ("cc=****1111&cc2=5500000000000004".toList) =
      some ("5500000000000004".toList) := by
  exact ⟨rfl, rfl⟩

/-- C4, amended: only the leftmost 16-digit sequence found in the logged text
is redacted (every occurrence of that exact sequence is replaced with `****`
plus its last four digits); in particular a body whose only 16-digit sequence
is `4111111111111111` is logged containing `****1111` and containing no
16-digit sequence at all; when debug logging is disabled nothing is logged;
and a body with no 16-digit sequence is logged verbatim. -/
theorem C4_redaction_amended :
    process_http_request_log true "cardnumber=4111111111111111&cvv=123" =
      some "cardnumber=****1111&cvv=123"
  ∧ search16 ("cardnumber=****1111&cvv=123".toList) = none
  ∧ (∀ s : String, process_http_request_log false s = none)
  ∧ (∀ s : String, search16 s.toList = none →
      anonymize_sensitive_data s = s) := by
  refine ⟨rfl, rfl, fun s => rfl, fun s h => ?_⟩
  have h' : search16 s.data = none := h
  simp [anonymize_sensitive_data, h']

/-- C4, witness for the amended statement: a body with no 16-digit sequence
is logged verbatim. -/
theorem C4_redaction_amended_witness :
    search16 ("cvv=123".toList) = none ∧
      anonymize_sensitive_data "cvv=123" = "cvv=123" :=
  ⟨rfl, C4_redaction_amended.2.2.2 "cvv=123" rfl⟩

/-- C5, counterexample: when the initiate-phase HTML carries
`mderrormessage = "Not Authenticated"`, the payment request does not signal
the authentication error to its caller — `_garanti_make_payment_request`
catches it and raises the generic payment error instead. -/
theorem C5_counterexample :
    garanti_make_payment_request (Except.ok docNotAuth) =
      Except.error "Payment Error: An error occurred. Please try again."
  ∧ garanti_make_payment_request (Except.ok docNotAuth) ≠
      Except.error "Payment failed. POS: Card is not authenticated." := by
  refine ⟨rfl, ?_⟩
  intro h
  simp [garanti_make_payment_request, garanti_parse_response_html,
    docNotAuth] at h

/-- C5, amended: `_garanti_parse_response_html` itself behaves exactly as the
claim states — `mderrormessage = "Not Authenticated"` raises the
authentication error, any other `mderrormessage` value raises a payment error
carrying that value, otherwise a `webform0` form yields `(form, html)` and
its absence yields `(redirect, html)` — but its only caller
`_garanti_make_payment_request` catches every error raised by the parse and
replaces it with the generic `"Payment Error: An error occurred. Please try
again."`, while passing form/redirect results through unchanged, so the
specific errors never reach the caller of the payment request. -/
theorem C5_parse_and_wrapper_amended :
    (∀ doc : HtmlDoc, doc.mderrormessage = some "Not Authenticated" →
        garanti_parse_response_html doc =
          Except.error "Payment failed. POS: Card is not authenticated.")
  ∧ (∀ (doc : HtmlDoc) (v : String), doc.mderrormessage = some v →
        v ≠ "Not Authenticated" →
        garanti_parse_response_html doc =
          Except.error ("Payment Error: " ++ v))
  ∧ (∀ (doc : HtmlDoc) (f : String), doc.mderrormessage = none →
        doc.webform0 = some f →
        garanti_parse_response_html doc = Except.ok ("form", f))
  ∧ (∀ doc : HtmlDoc, doc.mderrormessage = none → doc.webform0 = none →
        garanti_parse_response_html doc = Except.ok ("redirect", doc.full))
  ∧ (∀ (doc : HtmlDoc) (e : GarantiError),
        garanti_parse_response_html doc = Except.error e →
        garanti_make_payment_request (Except.ok doc) =
          Except.error "Payment Error: An error occurred. Please try again.")
  ∧ (∀ (doc : HtmlDoc) (r : String × String),
        garanti_parse_response_html doc = Except.ok r →
        garanti_make_payment_request (Except.ok doc) = Except.ok r) := by
  refine ⟨?_, ?_, ?_, ?_, ?_, ?_⟩
  · intro doc h
    simp [garanti_parse_response_html, h]
  · intro doc v h hv
    simp [garanti_parse_response_html, h, hv]
  · intro doc f h1 h2
    simp [garanti_parse_response_html, h1, h2]
  · intro doc h1 h2
    simp [garanti_parse_response_html, h1, h2]
  · intro doc e h
    simp [garanti_make_payment_request, h]
  · intro doc r h
    simp [garanti_make_payment_request, h]

/-- C5, witness: the four parse outcomes and the wrapper's masking and
pass-through, each at a concrete document. -/
theorem C5_parse_and_wrapper_amended_witness :
    garanti_parse_response_html docNotAuth =
      Except.error "Payment failed. POS: Card is not authenticated."
  ∧ garanti_parse_response_html ⟨some "System Error", none, "<html></html>"⟩ =
      Except.error "Payment Error: System Error"
  ∧ garanti_parse_response_html ⟨none, some "<form id=webform0></form>", "x"⟩ =
      Except.ok ("form", "<form id=webform0></form>")
  ∧ garanti_parse_response_html ⟨none, none, "<html>redir</html>"⟩ =
      Except.ok ("redirect", "<html>redir</html>")
  ∧ garanti_make_payment_request (Except.ok docNotAuth) =
      Except.error "Payment Error: An error occurred. Please try again."
  ∧ garanti_make_payment_request (Except.ok ⟨none, none, "<html>redir</html>"⟩) =
      Except.ok ("redirect", "<html>redir</html>") :=
  ⟨C5_parse_and_wrapper_amended.1 docNotAuth rfl,
    C5_parse_and_wrapper_amended.2.1 _ "System Error" rfl (by decide),
    C5_parse_and_wrapper_amended.2.2.1 _ "<form id=webform0></form>" rfl rfl,
    C5_parse_and_wrapper_amended.2.2.2.1 _ rfl rfl,
    C5_parse_and_wrapper_amended.2.2.2.2.1 docNotAuth
      "Payment failed. POS: Card is not authenticated." rfl,
    C5_parse_and_wrapper_amended.2.2.2.2.2 _ ("redirect", "<html>redir</html>")
      rfl⟩

/-- C6: at the initiate endpoint, after the order lookup and card validation
succeed, an amount that `float_compare` finds different from the order's
expected payable amount raises the `ValidationError "Invalid amount"` with an
empty effect trace — before the transaction record is created and before any
network call to the provider. -/
theorem C6_invalid_amount_before_effects (env : CtrlEnv)
    (h1 : env.order_found = true) (h2 : pyTruthy env.card_error = false)
    (h3 : env.amount_parses = true) (h4 : env.amount_compare ≠ 0) :
    garanti_s2s_create_json_3ds env =
      ([], CtrlOutcome.validationError "Invalid amount") := by
  simp [garanti_s2s_create_json_3ds, h1, h2, h3, h4]

/-- C6, witness: a concrete environment with a mismatched amount. -/
theorem C6_invalid_amount_before_effects_witness :
    garanti_s2s_create_json_3ds
        { order_found := true, card_error := none, amount_parses := true,
          amount_compare := 1, payment_request := Except.error () } =
      ([], CtrlOutcome.validationError "Invalid amount") :=
  C6_invalid_amount_before_effects _ rfl rfl rfl (by decide)

/-- C7: in `_garanti_query_transaction` the call `etree.fromstring` sits
outside the `try` block, so a malformed provider response makes the parser
exception propagate uncaught to the caller instead of a generic payment
error — evaluated at the failing input (transport succeeded, body
unparseable). -/
theorem C7_query_malformed_uncaught :
    garanti_query_transaction (Except.ok (Except.error ())) =
      QueryOutcome.uncaughtException := rfl

/-- C8: when the payment-request call fails with any exception, the initiate
handler records the error on the transaction, still saves the transaction in
the session, does not re-raise, and ends at `return response_content` with
`response_content` never assigned on that path. -/
theorem C8_swallowed_exception_unbound_response (env : CtrlEnv)
    (h1 : env.order_found = true) (h2 : pyTruthy env.card_error = false)
    (h3 : env.amount_parses = true) (h4 : env.amount_compare = 0)
    (h5 : env.payment_request = Except.error ()) :
    garanti_s2s_create_json_3ds env =
      ([CtrlEffect.txCreate, CtrlEffect.paymentRequest,
        CtrlEffect.setTxError "Payment Error. Please contact us.",
        CtrlEffect.addPaymentTx], CtrlOutcome.unboundLocal) := by
  simp [garanti_s2s_create_json_3ds, h1, h2, h3, h4, h5]

/-- C8, witness: a concrete environment whose payment request raises. -/
theorem C8_swallowed_exception_unbound_response_witness :
    garanti_s2s_create_json_3ds
        { order_found := true, card_error := none, amount_parses := true,
          amount_compare := 0, payment_request := Except.error () } =
      ([CtrlEffect.txCreate, CtrlEffect.paymentRequest,
        CtrlEffect.setTxError "Payment Error. Please contact us.",
        CtrlEffect.addPaymentTx], CtrlOutcome.unboundLocal) :=
  C8_swallowed_exception_unbound_response _ rfl rfl rfl rfl rfl

/-- C9, counterexample: the expiry year is transformed with
`year.replace("20", "")`, which removes every occurrence of `"20"` — for the
4-digit year `"2020"` the `cardexpiredateyear` field becomes `""`, not the
last two digits `"20"`. -/
theorem C9_counterexample :
    (garanti_create_payment_vals id id acq0 tx0 cardArgs2020 "127.0.0.1"
        1250 1700000000000).cardexpiredateyear = ""
  ∧ ("" : String) ≠ "20" := ⟨rfl, by decide⟩

/-- C9, amended: `cardexpiredateyear` is the expiry year with every
occurrence of the substring `"20"` removed; for a 4-digit year of the form
`"20" ++ YY` this equals the last two digits `YY` exactly when `YY ≠ "20"`
(the year `"2020"` collapses to `""`). -/
theorem C9_expiry_year_amended (sha1hex fmt : String → String)
    (acq : GarantiAcquirer) (tx : GarantiTx) (ca : CardArgs)
    (ip : String) (amount : Int) (ts : Nat) (d1 d2 : Char)
    (hy : ca.card_valid_year = String.mk ['2', '0', d1, d2])
    (hne : ¬ (d1 = '2' ∧ d2 = '0')) :
    (garanti_create_payment_vals sha1hex fmt acq tx ca ip amount
        ts).cardexpiredateyear = String.mk [d1, d2] := by
  have hpre : (List.isPrefixOf ['2', '0'] [d1, d2]) = false := by
    simp [List.isPrefixOf]
    tauto
  simp [garanti_create_payment_vals, pyReplace, hy, pyReplaceFuel, hpre,
    List.asString]

/-- C9, witness: the year `"2029"` yields `"29"`. -/
theorem C9_expiry_year_amended_witness :
    (garanti_create_payment_vals id id acq0 tx0
        { cardArgs2020 with card_valid_year := "2029" } "127.0.0.1"
        1250 1700000000000).cardexpiredateyear = String.mk ['2', '9'] :=
  C9_expiry_year_amended id id acq0 tx0 _ "127.0.0.1" 1250 1700000000000
    '2' '9' (by decide) (by decide)

/-- C10: `button_mail_send` always returns `True`; it posts the
shipment-status email exactly when a recipient email exists and `mail_sent`
is still false (and then marks `mail_sent`); and a second invocation on the
resulting record posts nothing and changes no field, so at most one email is
ever sent per record. -/
theorem C10_button_mail_send_idempotent (p : StockPicking) :
    (button_mail_send p).2 = true
  ∧ (button_mail_send p).1.messages_posted =
      p.messages_posted +
        (if pyTruthy (pyOr p.partner_email p.sale_partner_email) = true ∧
            p.mail_sent = false then 1 else 0)
  ∧ (button_mail_send p).1.mail_sent =
      (p.mail_sent ||
        pyTruthy (pyOr p.partner_email p.sale_partner_email))
  ∧ button_mail_send (button_mail_send p).1 = ((button_mail_send p).1, true) := by
  by_cases he : pyTruthy (pyOr p.partner_email p.sale_partner_email) = true <;>
    by_cases hm : p.mail_sent <;>
      simp [button_mail_send, he, hm]
